import Mathlib

/-!
# CompareImages.cpp: image comparison with shift compensation

A shallow embedding of `CompareImages.cpp`.  The program loads two grayscale
images, lets the user pick a reference region and a template region with
trackbars, finds the template in the second image, crops both images so that
they are aligned, thresholds their absolute difference and counts the defect
contours whose area exceeds a minimum.

Conventions of the embedding.

* A C++ `int` is an `Int`; every arithmetic operation of the program on `int`
  is followed by `wrap32`, the 32-bit two's complement value of the result.
* A `cv::Mat` of type `CV_8UC1` is a `Mat`: its `rows`, its `cols` and its
  pixel function `px row col`.  Only pixels inside `rows x cols` mean anything.
* OpenCV routines whose result is a simple per-pixel formula (ROI crop,
  `absdiff`, `threshold`, `erode`, `dilate`, `countNonZero`, `cv::RNG`) are
  defined here after the OpenCV reference.  Routines that are algorithms of
  their own (`rectangle`, `matchTemplate` followed by `minMaxLoc`,
  `findContours`, `contourArea`) are fields of `Library`: every theorem holds
  for every implementation of them, under the stated contract where one is
  needed.
* `doWork` is one C++ function; here it is the composition of its consecutive
  blocks `doWork_selection`, `doWork_align`, `doWork_compare`, so that a
  theorem can speak about a block for every value entering it.
* A `cv::Exception` is modelled where the program's own arguments decide it:
  the three ROI crops, the size check of `absdiff`, and `matchTemplate` (which
  the library parameter may refuse).  The window calls (`show`) only record the
  image shown, and the three-channel copy `image_diff_contours` is represented
  by the list of `drawContours` calls.  Exceptions that the library may raise
  on degenerate inputs elsewhere (an empty image passed to `imshow`, say) are
  not modelled: the model then completes a run that the program would abort,
  so a statement about every completed run of the model covers every
  completed run of the program.
-/

namespace CompareImages

/-! ## Machine integers, points, rectangles -/

/-- The value of a C++ `int` after an operation whose exact result is `v`. -/
def wrap32 (v : Int) : Int := (v + 2147483648) % 4294967296 - 2147483648

/-- The type `cv::Point` (`cv::Point_<int>`). -/
structure Point where
  x : Int
  y : Int
deriving DecidableEq, Repr

/-- The operator `cv::Point operator-(a, b)`: componentwise `int` subtraction. -/
def Point.sub (a b : Point) : Point :=
  ⟨wrap32 (a.x - b.x), wrap32 (a.y - b.y)⟩

/-- The type `cv::Rect` (`cv::Rect_<int>`): top-left corner, width, height. -/
structure Rect where
  x : Int
  y : Int
  width : Int
  height : Int
deriving DecidableEq, Repr

/-- The method `cv::Rect::tl()`. -/
def Rect.tl (r : Rect) : Point := ⟨r.x, r.y⟩

/-- The method `cv::Rect::br()`: `Point(x + width, y + height)`. -/
def Rect.br (r : Rect) : Point := ⟨wrap32 (r.x + r.width), wrap32 (r.y + r.height)⟩

/-! ## Images -/

/-- A single-channel 8-bit `cv::Mat`. -/
structure Mat where
  rows : Nat
  cols : Nat
  px : Nat → Nat → Nat

/-- The default-constructed `cv::Mat` (also what `imread` returns on failure). -/
def Mat.empty : Mat := ⟨0, 0, fun _ _ => 0⟩

/-- Every pixel inside the image is an 8-bit value. -/
def Mat.Is8U (m : Mat) : Prop := ∀ r c, r < m.rows → c < m.cols → m.px r c < 256

/-- Two images have the same size and the same pixels. -/
def Mat.SamePixels (a b : Mat) : Prop :=
  a.rows = b.rows ∧ a.cols = b.cols ∧ ∀ r c, r < a.rows → c < a.cols → a.px r c = b.px r c

/-- The ROI check of `cv::Mat::Mat(const Mat&, const Rect&)`:
`0 <= roi.x && 0 <= roi.width && roi.x + roi.width <= m.cols &&
 0 <= roi.y && 0 <= roi.height && roi.y + roi.height <= m.rows`. -/
def Mat.roiInside (m : Mat) (roi : Rect) : Bool :=
  decide (0 ≤ roi.x) && decide (0 ≤ roi.width) && decide (wrap32 (roi.x + roi.width) ≤ (m.cols : Int)) &&
  decide (0 ≤ roi.y) && decide (0 ≤ roi.height) && decide (wrap32 (roi.y + roi.height) ≤ (m.rows : Int))

/-- The call `m(roi)`, `cv::Mat::operator()(const Rect&)`: the sub-image, or `none`
when the assertion on the rectangle fails and a `cv::Exception` is thrown. -/
def Mat.crop (m : Mat) (roi : Rect) : Option Mat :=
  if m.roiInside roi then
    some ⟨roi.height.toNat, roi.width.toNat, fun r c => m.px (roi.y.toNat + r) (roi.x.toNat + c)⟩
  else none

/-- The conversion `cv::saturate_cast<uchar>`. -/
def saturate_u8 (v : Int) : Nat := if v < 0 then 0 else if 255 < v then 255 else v.toNat

/-- The call `cv::absdiff(a, b, dst)` on 8-bit images: `saturate(|a - b|)` per pixel;
`none` when the sizes differ (the library throws). -/
def absdiff (a b : Mat) : Option Mat :=
  if a.rows = b.rows ∧ a.cols = b.cols then
    some ⟨a.rows, a.cols, fun r c => saturate_u8 (|(a.px r c : Int) - (b.px r c : Int)|)⟩
  else none

/-- One pixel of `cv::threshold` on 8-bit data, by threshold type
(0 `THRESH_BINARY`, 1 `THRESH_BINARY_INV`, 2 `THRESH_TRUNC`, 3 `THRESH_TOZERO`,
4 `THRESH_TOZERO_INV`); `maxval` is stored as `saturate_cast<uchar>`.  The
library rejects any other type; the program only passes 0. -/
def thresholdPixel (v : Nat) (thresh maxval : Int) (type : Nat) : Nat :=
  match type with
  | 0 => if thresh < (v : Int) then saturate_u8 maxval else 0
  | 1 => if thresh < (v : Int) then 0 else saturate_u8 maxval
  | 2 => if thresh < (v : Int) then saturate_u8 thresh else v
  | 3 => if thresh < (v : Int) then v else 0
  | 4 => if thresh < (v : Int) then 0 else v
  | _ => v

/-- The call `cv::threshold(src, dst, thresh, maxval, type)`. -/
def threshold (src : Mat) (thresh maxval : Int) (type : Nat) : Mat :=
  ⟨src.rows, src.cols, fun r c => thresholdPixel (src.px r c) thresh maxval type⟩

/-- The pixels of `src` under a `ksize x ksize` rectangular structuring element
anchored at its centre and placed at `(r, c)`; positions outside the image are
left out (the default border of `erode` and `dilate` never wins). -/
def windowVals (src : Mat) (ksize : Nat) (r c : Nat) : List Nat :=
  (List.product (List.range ksize) (List.range ksize)).filterMap (fun ij =>
    let rr : Int := (r : Int) + (ij.1 : Int) - ((ksize / 2 : Nat) : Int)
    let cc : Int := (c : Int) + (ij.2 : Int) - ((ksize / 2 : Nat) : Int)
    if 0 ≤ rr ∧ rr < (src.rows : Int) ∧ 0 ≤ cc ∧ cc < (src.cols : Int) then
      some (src.px rr.toNat cc.toNat)
    else none)

/-- The call `cv::erode(src, dst, element)` with a `ksize x ksize` `MORPH_RECT` element. -/
def erode (src : Mat) (ksize : Nat) : Mat :=
  ⟨src.rows, src.cols, fun r c => (windowVals src ksize r c).foldl min 255⟩

/-- The call `cv::dilate(src, dst, element)` with a `ksize x ksize` `MORPH_RECT` element. -/
def dilate (src : Mat) (ksize : Nat) : Mat :=
  ⟨src.rows, src.cols, fun r c => (windowVals src ksize r c).foldl max 0⟩

/-- The number of non-zero pixels, before conversion to `int`. -/
def nonZeroPixels (m : Mat) : Nat :=
  ((List.range m.rows).map (fun r =>
    ((List.range m.cols).filter (fun c => decide (m.px r c ≠ 0))).length)).sum

/-- The call `cv::countNonZero(m)`, an `int`. -/
def countNonZero (m : Mat) : Int := wrap32 (nonZeroPixels m)

/-! ## The random generator of the contour colours -/

/-- The method `cv::RNG::next()`:
`state = (uint64)(unsigned)state * 4164903690U + (unsigned)(state >> 32); return (unsigned)state;`
The result is the pair of the returned `unsigned` and the new 64-bit state. -/
def RNG.next (state : Nat) : Nat × Nat :=
  let state1 := ((state % 4294967296) * 4164903690 + state / 4294967296) % 18446744073709551616
  (state1 % 4294967296, state1)

/-- The method `cv::RNG::uniform(int a, int b)`: `a == b ? a : (int)(next() % (b - a) + a)`,
computed in `unsigned` and converted back to `int`. -/
def RNG.uniform (state : Nat) (a b : Int) : Int × Nat :=
  if a = b then (a, state)
  else
    let n := RNG.next state
    (wrap32 ((((n.1 : Int) % ((b - a) % 4294967296)) + a) % 4294967296), n.2)

/-! ## Library routines taken as parameters -/

/-- A contour, `std::vector<cv::Point>`. -/
abbrev Contour := List Point

/-- The OpenCV algorithms the program calls and this development does not define. -/
structure Library where
  /-- The image after `cv::rectangle(img, pt1, pt2, cv::Scalar(255, 0, 0), thickness, cv::LINE_8)`. -/
  rectangle : Mat → Point → Point → Int → Mat
  /-- The `maxLoc` of `cv::minMaxLoc` on the result of
  `cv::matchTemplate(image, templ, result, cv::TM_CCORR_NORMED)`; `none` when the library throws. -/
  matchTemplate_maxLoc : Mat → Mat → Option Point
  /-- The contours of `cv::findContours(image, contours, hierarchy, cv::RETR_TREE, cv::CHAIN_APPROX_SIMPLE)`. -/
  findContours : Mat → List Contour
  /-- The value of `cv::contourArea(contour)`, a `double` holding a multiple of one half. -/
  contourArea : Contour → Rat

/-- The contract of `findContours` used below: an image without a non-zero pixel has no contour. -/
def Library.BlankHasNoContour (lib : Library) : Prop :=
  ∀ m : Mat, nonZeroPixels m = 0 → lib.findContours m = []

/-! ## Global state of the program -/

/-- The global `max_threshold_value`; no statement of the program assigns it. -/
def max_threshold_value : Int := 255

/-- The global variables of `CompareImages.cpp` that the program assigns. -/
structure State where
  ref_TopLeft : Point
  ref_BotRight : Point
  templ_TopLeft : Point
  templ_BotRight : Point
  ref_corner_x : Int
  templ_corner_x : Int
  ref_corner_y : Int
  templ_corner_y : Int
  ref_width : Int
  templ_width : Int
  ref_height : Int
  templ_height : Int
  ref_crop_rect : Rect
  templ_crop_rect : Rect
  threshold_value : Int
  errode_dilate_seed : Int
  threshold_defect_area : Int
  rng : Nat
  image_first : Mat
  image_second : Mat
  copy1 : Mat
  copy2 : Mat

/-- The initial values of the globals (lines 17 to 35); the four images are empty. -/
def State.initial : State where
  ref_TopLeft := ⟨20, 100⟩
  ref_BotRight := ⟨1200, 900⟩
  templ_TopLeft := ⟨1085, 100⟩
  templ_BotRight := ⟨1185, 400⟩
  ref_corner_x := 20
  templ_corner_x := 1085
  ref_corner_y := 100
  templ_corner_y := 100
  ref_width := 1200
  templ_width := 100
  ref_height := 900
  templ_height := 300
  ref_crop_rect := ⟨20, 100, 1200, 900⟩
  templ_crop_rect := ⟨1085, 100, 100, 300⟩
  threshold_value := 50
  errode_dilate_seed := 0
  threshold_defect_area := 300
  rng := 12345
  image_first := Mat.empty
  image_second := Mat.empty
  copy1 := Mat.empty
  copy2 := Mat.empty

/-- The eleven trackbars created in `main`. -/
inductive Trackbar where
  | r_x_TL | r_y_TL | r_x_BR | r_y_BR
  | t_x_TL | t_y_TL | t_x_BR | t_y_BR
  | thrshld | err_dil | min_area
deriving DecidableEq, Repr

/-- The `count` argument of `cv::createTrackbar`: positions run from 0 to `count`. -/
def Trackbar.count : Trackbar → Int
  | .r_x_TL => 1400 | .r_y_TL => 1000 | .r_x_BR => 1400 | .r_y_BR => 1000
  | .t_x_TL => 1400 | .t_y_TL => 1000 | .t_x_BR => 1400 | .t_y_BR => 1000
  | .thrshld => 255 | .err_dil => 50 | .min_area => 2000

/-- Moving a trackbar stores the position in the variable bound to it. -/
def Trackbar.store (t : Trackbar) (pos : Int) (s : State) : State :=
  match t with
  | .r_x_TL => { s with ref_corner_x := pos }
  | .r_y_TL => { s with ref_corner_y := pos }
  | .r_x_BR => { s with ref_width := pos }
  | .r_y_BR => { s with ref_height := pos }
  | .t_x_TL => { s with templ_corner_x := pos }
  | .t_y_TL => { s with templ_corner_y := pos }
  | .t_x_BR => { s with templ_width := pos }
  | .t_y_BR => { s with templ_height := pos }
  | .thrshld => { s with threshold_value := pos }
  | .err_dil => { s with errode_dilate_seed := pos }
  | .min_area => { s with threshold_defect_area := pos }

/-- The value of the variable bound to a trackbar. -/
def Trackbar.value (t : Trackbar) (s : State) : Int :=
  match t with
  | .r_x_TL => s.ref_corner_x
  | .r_y_TL => s.ref_corner_y
  | .r_x_BR => s.ref_width
  | .r_y_BR => s.ref_height
  | .t_x_TL => s.templ_corner_x
  | .t_y_TL => s.templ_corner_y
  | .t_x_BR => s.templ_width
  | .t_y_BR => s.templ_height
  | .thrshld => s.threshold_value
  | .err_dil => s.errode_dilate_seed
  | .min_area => s.threshold_defect_area

/-- A slider setting: every trackbar variable lies in the range of its trackbar. -/
def SliderRange (s : State) : Prop :=
  (0 ≤ s.ref_corner_x ∧ s.ref_corner_x ≤ 1400) ∧ (0 ≤ s.ref_corner_y ∧ s.ref_corner_y ≤ 1000) ∧
  (0 ≤ s.ref_width ∧ s.ref_width ≤ 1400) ∧ (0 ≤ s.ref_height ∧ s.ref_height ≤ 1000) ∧
  (0 ≤ s.templ_corner_x ∧ s.templ_corner_x ≤ 1400) ∧ (0 ≤ s.templ_corner_y ∧ s.templ_corner_y ≤ 1000) ∧
  (0 ≤ s.templ_width ∧ s.templ_width ≤ 1400) ∧ (0 ≤ s.templ_height ∧ s.templ_height ≤ 1000) ∧
  (0 ≤ s.threshold_value ∧ s.threshold_value ≤ 255) ∧
  (0 ≤ s.errode_dilate_seed ∧ s.errode_dilate_seed ≤ 50) ∧
  (0 ≤ s.threshold_defect_area ∧ s.threshold_defect_area ≤ 2000)

instance (s : State) : Decidable (SliderRange s) := by
  delta SliderRange
  infer_instance

/-- A pixel position of an image that `imread` can decode: both coordinates are
non-negative and at most `2^30`, the bound `imread` puts on the pixel count. -/
def PixelPosition (p : Point) : Prop :=
  (0 ≤ p.x ∧ p.x ≤ 1073741824) ∧ (0 ≤ p.y ∧ p.y ≤ 1073741824)

instance (p : Point) : Decidable (PixelPosition p) := by
  delta PixelPosition
  infer_instance

/-- The state predicate: both working images equal their pristine copies. -/
def Restored (s : State) : Prop := s.image_first = s.copy1 ∧ s.image_second = s.copy2

/-! ## `doWork`, block by block -/

/-- Lines 48 to 66 of `doWork`: update the corner points from the trackbar
variables, draw the two selection rectangles on `image_first`, show it, restore
`image_first` from `copy1`, update `templ_crop_rect`.  The second component is
the image shown in the first window. -/
def doWork_selection (lib : Library) (s0 : State) : State × Mat :=
  -- ref_TopLeft.x = ref_corner_x; ref_TopLeft.y = ref_corner_y;
  let s1 : State := { s0 with ref_TopLeft := ⟨s0.ref_corner_x, s0.ref_corner_y⟩ }
  -- ref_BotRight.x = ref_TopLeft.x + ref_width; ref_BotRight.y = ref_TopLeft.y + ref_height;
  let s2 : State := { s1 with ref_BotRight :=
    ⟨wrap32 (s1.ref_TopLeft.x + s1.ref_width), wrap32 (s1.ref_TopLeft.y + s1.ref_height)⟩ }
  -- cv::rectangle(image_first, ref_TopLeft, ref_BotRight, ..., 2, cv::LINE_8);
  let s3 : State := { s2 with image_first := lib.rectangle s2.image_first s2.ref_TopLeft s2.ref_BotRight 2 }
  -- templ_TopLeft.x = templ_corner_x; templ_TopLeft.y = templ_corner_y;
  let s4 : State := { s3 with templ_TopLeft := ⟨s3.templ_corner_x, s3.templ_corner_y⟩ }
  -- templ_BotRight.x = templ_TopLeft.x + templ_width; templ_BotRight.y = templ_TopLeft.y + templ_height;
  let s5 : State := { s4 with templ_BotRight :=
    ⟨wrap32 (s4.templ_TopLeft.x + s4.templ_width), wrap32 (s4.templ_TopLeft.y + s4.templ_height)⟩ }
  -- cv::rectangle(image_first, templ_TopLeft, templ_BotRight, ..., 8, cv::LINE_8);
  let s6 : State := { s5 with image_first := lib.rectangle s5.image_first s5.templ_TopLeft s5.templ_BotRight 8 }
  -- show(filename_first, image_first);
  let shown_first := s6.image_first
  -- copy1.copyTo(image_first);
  let s7 : State := { s6 with image_first := s6.copy1 }
  -- templ_crop_rect.x = templ_corner_x; ... templ_crop_rect.height = templ_height;
  let s8 : State := { s7 with templ_crop_rect :=
    ⟨s7.templ_corner_x, s7.templ_corner_y, s7.templ_width, s7.templ_height⟩ }
  (s8, shown_first)

/-- What lines 77 to 95 of `doWork` compute besides the new global state. -/
structure Alignment where
  template_delta_point : Point
  image_crop_rect : Rect
  /-- The two corners passed to `cv::rectangle` for the found reference rectangle. -/
  found_ref_pt1 : Point
  found_ref_pt2 : Point
  /-- The two corners passed to `cv::rectangle` for the found template rectangle. -/
  found_templ_pt1 : Point
  found_templ_pt2 : Point
  /-- The image shown in the second window. -/
  shown_second : Mat

/-- Lines 77 to 95 of `doWork`, entered with the best-match location `maxLoc`:
the shift, `ref_crop_rect`, `image_crop_rect`, the two rectangles drawn on
`image_second`, its display and its restoration from `copy2`. -/
def doWork_align (lib : Library) (s0 : State) (maxLoc : Point) : State × Alignment :=
  -- template_delta_point = cv::Point(templ_crop_rect.x, templ_crop_rect.y) - maxLoc;
  let template_delta_point : Point :=
    Point.sub ⟨s0.templ_crop_rect.x, s0.templ_crop_rect.y⟩ maxLoc
  -- ref_crop_rect.x = ref_corner_x; ... ref_crop_rect.height = ref_height;
  let s1 : State := { s0 with ref_crop_rect :=
    ⟨s0.ref_corner_x, s0.ref_corner_y, s0.ref_width, s0.ref_height⟩ }
  -- const cv::Rect image_crop_rect(ref_crop_rect.x - template_delta_point.x,
  --     ref_crop_rect.y - template_delta_point.y, ref_crop_rect.width, ref_crop_rect.height);
  let image_crop_rect : Rect :=
    ⟨wrap32 (s1.ref_crop_rect.x - template_delta_point.x),
     wrap32 (s1.ref_crop_rect.y - template_delta_point.y),
     s1.ref_crop_rect.width, s1.ref_crop_rect.height⟩
  -- cv::rectangle(image_second, ref_TopLeft - template_delta_point,
  --     ref_BotRight - template_delta_point, ..., 2, cv::LINE_8);
  let found_ref_pt1 := Point.sub s1.ref_TopLeft template_delta_point
  let found_ref_pt2 := Point.sub s1.ref_BotRight template_delta_point
  let s2 : State := { s1 with image_second := lib.rectangle s1.image_second found_ref_pt1 found_ref_pt2 2 }
  -- cv::rectangle(image_second, maxLoc,
  --     cv::Point(maxLoc.x + templ_width, maxLoc.y + templ_height), ..., 8, cv::LINE_8);
  let found_templ_pt1 := maxLoc
  let found_templ_pt2 : Point :=
    ⟨wrap32 (maxLoc.x + s2.templ_width), wrap32 (maxLoc.y + s2.templ_height)⟩
  let s3 : State := { s2 with image_second := lib.rectangle s2.image_second found_templ_pt1 found_templ_pt2 8 }
  -- show(filename_second, image_second, 500, 400, 550, 0);
  let shown_second := s3.image_second
  -- copy2.copyTo(image_second);
  let s4 : State := { s3 with image_second := s3.copy2 }
  (s4, ⟨template_delta_point, image_crop_rect, found_ref_pt1, found_ref_pt2,
        found_templ_pt1, found_templ_pt2, shown_second⟩)

/-- The variables of the loop over the contours (lines 130 to 137). -/
structure ContourLoop where
  rng : Nat
  contours_cnt : Int
  /-- The calls of `cv::drawContours` so far: the `contourIdx` argument `(int)i`
  and the three colour draws in the order they were generated. -/
  drawn : List (Int × List Int)

/-- Lines 131 to 137 of `doWork`: the loop `for (size_t i = 0; i < contours.size(); ++i)`,
here over the contours still to visit, `i` being the index of the first of them. -/
def doWork_contours (lib : Library) (threshold_defect_area : Int) :
    List Contour → Nat → ContourLoop → ContourLoop
  | [], _, st => st
  | contour :: rest, i, st =>
    -- cv::Scalar random_color = cv::Scalar(rng.uniform(0, 256), rng.uniform(0, 256), rng.uniform(0, 256));
    let u1 := RNG.uniform st.rng 0 256
    let u2 := RNG.uniform u1.2 0 256
    let u3 := RNG.uniform u2.2 0 256
    let st1 : ContourLoop := ⟨u3.2, st.contours_cnt, st.drawn⟩
    -- if (cv::contourArea(contours[i]) > threshold_defect_area) { ++contours_cnt; cv::drawContours(...); }
    let st2 : ContourLoop :=
      if (threshold_defect_area : Rat) < lib.contourArea contour then
        ⟨st1.rng, wrap32 (st1.contours_cnt + 1),
         st1.drawn ++ [(wrap32 (i : Int), [u1.1, u2.1, u3.1])]⟩
      else st1
    doWork_contours lib threshold_defect_area rest (i + 1) st2

/-- What lines 101 to 139 of `doWork` compute. -/
structure Comparison where
  /-- The image `image_diff` after `cv::absdiff`. -/
  image_absdiff : Mat
  /-- The image `image_diff` after `cv::threshold`. -/
  image_thresholded : Mat
  /-- The image `image_diff` after `erode` and `dilate`. -/
  image_diff : Mat
  /-- The printed "Discrepancy Pixels Count". -/
  nonZeroCount : Int
  contours : List Contour
  /-- The printed "Count of regions with area > threshold_defect_area". -/
  contours_cnt : Int
  drawn : List (Int × List Int)

/-- Lines 101 to 142 of `doWork`, entered with the two crops: absolute
difference, threshold, erosion and dilation, count of non-zero pixels,
contours, and the loop that counts and draws the large ones.
`none` when `cv::absdiff` throws. -/
def doWork_compare (lib : Library) (s0 : State) (img1_croped img2_croped : Mat) :
    Option (State × Comparison) :=
  -- cv::absdiff(img1_croped, img2_croped, image_diff);
  match absdiff img1_croped img2_croped with
  | none => none
  | some image_absdiff =>
    -- cv::threshold(image_diff, image_diff, threshold_value, max_threshold_value, 0);
    let image_thresholded := threshold image_absdiff s0.threshold_value max_threshold_value 0
    -- element = cv::getStructuringElement(cv::MORPH_RECT,
    --     cv::Size(2 * errode_dilate_seed + 1, 2 * errode_dilate_seed + 1), ...);
    let ksize : Nat := (wrap32 (wrap32 (2 * s0.errode_dilate_seed) + 1)).toNat
    -- erode(image_diff, image_diff, element); dilate(image_diff, image_diff, element);
    let image_eroded := erode image_thresholded ksize
    let image_diff := dilate image_eroded ksize
    -- int nonZeroCount = cv::countNonZero(image_diff);
    let nonZeroCount := countNonZero image_diff
    -- cv::findContours(image_diff, contours, hierarchy, cv::RETR_TREE, cv::CHAIN_APPROX_SIMPLE);
    let contours := lib.findContours image_diff
    -- int contours_cnt = 0; for (...) { ... }
    let loop := doWork_contours lib s0.threshold_defect_area contours 0 ⟨s0.rng, 0, []⟩
    some ({ s0 with rng := loop.rng },
          ⟨image_absdiff, image_thresholded, image_diff, nonZeroCount, contours,
           loop.contours_cnt, loop.drawn⟩)

/-- The statement of `doWork` at which a `cv::Exception` leaves it. -/
inductive Failure where
  /-- Line 69, `image_first(templ_crop_rect)`. -/
  | templateCrop
  /-- Line 73, `cv::matchTemplate`. -/
  | matchTemplate
  /-- Line 98, `image_first(ref_crop_rect)`. -/
  | referenceCrop
  /-- Line 99, `image_second(image_crop_rect)`. -/
  | imageCrop
  /-- Line 103, `cv::absdiff`. -/
  | absdiff
deriving DecidableEq, Repr

/-- Everything a completed run of `doWork` computed. -/
structure Report where
  shown_first : Mat
  image_template : Mat
  maxLoc : Point
  alignment : Alignment
  img1_croped : Mat
  img2_croped : Mat
  comparison : Comparison

/-- The callback `doWork(int, void*)`: the global state it leaves and either the
report of a completed run or the statement that threw. -/
def doWork (lib : Library) (s0 : State) : State × Except Failure Report :=
  let sel := doWork_selection lib s0
  -- cv::Mat image_template = image_first(templ_crop_rect);
  match sel.1.image_first.crop sel.1.templ_crop_rect with
  | none => (sel.1, .error .templateCrop)
  | some image_template =>
    -- cv::matchTemplate(image_second, image_template, ...); cv::minMaxLoc(..., &maxLoc);
    match lib.matchTemplate_maxLoc sel.1.image_second image_template with
    | none => (sel.1, .error .matchTemplate)
    | some maxLoc =>
      let al := doWork_align lib sel.1 maxLoc
      -- cv::Mat img1_croped = image_first(ref_crop_rect);
      match al.1.image_first.crop al.1.ref_crop_rect with
      | none => (al.1, .error .referenceCrop)
      | some img1_croped =>
        -- cv::Mat img2_croped = image_second(image_crop_rect);
        match al.1.image_second.crop al.2.image_crop_rect with
        | none => (al.1, .error .imageCrop)
        | some img2_croped =>
          match doWork_compare lib al.1 img1_croped img2_croped with
          | none => (al.1, .error .absdiff)
          | some cmp =>
            (cmp.1, .ok ⟨sel.2, image_template, maxLoc, al.2, img1_croped, img2_croped, cmp.2⟩)

/-! ## `main` -/

/-- Lines 147 to 155 of `main`: the two images returned by `cv::imread`
(an empty image when loading failed) and their copies. -/
def main_setup (loaded_first loaded_second : Mat) : State :=
  -- image_first = cv::imread(filename_first, cv::IMREAD_GRAYSCALE);
  let s1 : State := { State.initial with image_first := loaded_first }
  -- image_second = cv::imread(filename_second, cv::IMREAD_GRAYSCALE);
  let s2 : State := { s1 with image_second := loaded_second }
  -- image_first.copyTo(copy1);
  let s3 : State := { s2 with copy1 := s2.image_first }
  -- image_second.copyTo(copy2);
  let s4 : State := { s3 with copy2 := s3.image_second }
  s4

/-- The runs of `doWork` triggered by a sequence of trackbar moves: each move
stores the new position and calls `doWork`; `none` as soon as a run throws. -/
def trackbarRuns (lib : Library) : State → List (Trackbar × Int) → Option State
  | s, [] => some s
  | s, (t, pos) :: rest =>
    match doWork lib (t.store pos s) with
    | (s1, .ok _) => trackbarRuns lib s1 rest
    | (_, .error _) => none

/-- The function `main`: set-up, the first call `doWork(0, 0)`, then the trackbar
moves delivered while `cv::waitKey` runs.  The result is the state after the
last run, `none` if a run threw. -/
def main (lib : Library) (loaded_first loaded_second : Mat)
    (moves : List (Trackbar × Int)) : Option State :=
  match doWork lib (main_setup loaded_first loaded_second) with
  | (s1, .ok _) => trackbarRuns lib s1 moves
  | (_, .error _) => none

/-! ## Concrete inputs

A synthetic pair of images and a stand-in for the library routines, used to
evaluate the definitions and to instantiate the theorems. -/

/-- A 1010 x 1400 reference image. -/
def sampleFirst : Mat := ⟨1010, 1400, fun r c => (7 * r + 3 * c) % 256⟩

/-- The same scene moved by 5 pixels along both axes: the pixel `(r, c)` of this
image is the pixel `(r + 5, c + 5)` of `sampleFirst`. -/
def sampleSecond : Mat := ⟨1010, 1400, fun r c => (7 * (r + 5) + 3 * (c + 5)) % 256⟩

/-- Twice the signed area of a polygon (shoelace sum), the first vertex being `p0`. -/
def shoelace2 (p0 : Point) : List Point → Int
  | [] => 0
  | [p] => p.x * p0.y - p0.x * p.y
  | p :: q :: rest => (p.x * q.y - q.x * p.y) + shoelace2 p0 (q :: rest)

/-- A stand-in library: `rectangle` paints the one-pixel outline in white, the
best match is reported at `(1080, 95)`, a non-blank image has its frame as
single contour, and the area of a contour is its polygon area. -/
def sampleLibrary : Library where
  rectangle := fun img pt1 pt2 _ =>
    ⟨img.rows, img.cols, fun r c =>
      if (((r : Int) = pt1.y ∨ (r : Int) = pt2.y) ∧ pt1.x ≤ (c : Int) ∧ (c : Int) ≤ pt2.x) ∨
         (((c : Int) = pt1.x ∨ (c : Int) = pt2.x) ∧ pt1.y ≤ (r : Int) ∧ (r : Int) ≤ pt2.y)
      then 255 else img.px r c⟩
  matchTemplate_maxLoc := fun _ _ => some ⟨1080, 95⟩
  findContours := fun m =>
    if nonZeroPixels m = 0 then []
    else [[⟨0, 0⟩, ⟨(m.cols : Int) - 1, 0⟩, ⟨(m.cols : Int) - 1, (m.rows : Int) - 1⟩,
           ⟨0, (m.rows : Int) - 1⟩]]
  contourArea := fun contour =>
    match contour with
    | [] => 0
    | p0 :: rest => mkRat (|shoelace2 p0 (p0 :: rest)|) 2

/-- A 2 x 2 crop. -/
def sampleCropA : Mat := ⟨2, 2, fun r c => 100 * r + 60 * c⟩

/-- A 2 x 2 crop. -/
def sampleCropB : Mat := ⟨2, 2, fun r c => 40 * r + 10 * c + 9⟩

/-- The crop `sampleCropA` in a buffer that holds other values around it. -/
def sampleCropA2 : Mat := ⟨2, 2, fun r c => if r < 2 ∧ c < 2 then 100 * r + 60 * c else 7⟩

/-! ## Theorems -/

theorem wrap32_eq_self {v : Int} (h1 : -2147483648 ≤ v) (h2 : v < 2147483648) : wrap32 v = v := by
  unfold wrap32; omega

/-- C1.  For every state and every best-match location `maxLoc`, the rectangle
`image_crop_rect` cropped from the second image has the width and height of
the reference crop rectangle, and its top-left corner is the `int` value of
`ref_corner + maxLoc - templ_corner`.  For every slider setting (each trackbar
variable in the range of its trackbar) and every pixel position `maxLoc` that
value is the exact integer, so the rectangle is the reference rectangle
translated by `maxLoc - template top-left`, and the matched template sits at
the same offset from the corner of the second crop as the template from the
corner of the reference crop.  When both crops succeed they have the same
size, so `cv::absdiff` accepts them. -/
theorem image_crop_rect_is_translated_reference (lib : Library) (s : State) (maxLoc : Point) :
    (doWork_align lib (doWork_selection lib s).1 maxLoc).1.ref_crop_rect
        = ⟨s.ref_corner_x, s.ref_corner_y, s.ref_width, s.ref_height⟩ ∧
    (doWork_selection lib s).1.templ_crop_rect
        = ⟨s.templ_corner_x, s.templ_corner_y, s.templ_width, s.templ_height⟩ ∧
    (doWork_align lib (doWork_selection lib s).1 maxLoc).2.image_crop_rect.width = s.ref_width ∧
    (doWork_align lib (doWork_selection lib s).1 maxLoc).2.image_crop_rect.height = s.ref_height ∧
    (doWork_align lib (doWork_selection lib s).1 maxLoc).2.image_crop_rect.x
        = wrap32 (s.ref_corner_x + maxLoc.x - s.templ_corner_x) ∧
    (doWork_align lib (doWork_selection lib s).1 maxLoc).2.image_crop_rect.y
        = wrap32 (s.ref_corner_y + maxLoc.y - s.templ_corner_y) ∧
    (SliderRange s → PixelPosition maxLoc →
      (doWork_align lib (doWork_selection lib s).1 maxLoc).2.image_crop_rect
          = ⟨s.ref_corner_x + maxLoc.x - s.templ_corner_x,
             s.ref_corner_y + maxLoc.y - s.templ_corner_y, s.ref_width, s.ref_height⟩ ∧
      maxLoc.x - (doWork_align lib (doWork_selection lib s).1 maxLoc).2.image_crop_rect.x
          = s.templ_corner_x - s.ref_corner_x ∧
      maxLoc.y - (doWork_align lib (doWork_selection lib s).1 maxLoc).2.image_crop_rect.y
          = s.templ_corner_y - s.ref_corner_y) ∧
    (∀ img1_croped img2_croped : Mat,
      (doWork_align lib (doWork_selection lib s).1 maxLoc).1.image_first.crop
          (doWork_align lib (doWork_selection lib s).1 maxLoc).1.ref_crop_rect = some img1_croped →
      (doWork_align lib (doWork_selection lib s).1 maxLoc).1.image_second.crop
          (doWork_align lib (doWork_selection lib s).1 maxLoc).2.image_crop_rect = some img2_croped →
      img1_croped.rows = img2_croped.rows ∧ img1_croped.cols = img2_croped.cols ∧
      (absdiff img1_croped img2_croped).isSome = true) := by
  refine ⟨rfl, rfl, rfl, rfl, ?_, ?_, ?_, ?_⟩
  · simp only [doWork_align, doWork_selection, Point.sub]
    unfold wrap32; omega
  · simp only [doWork_align, doWork_selection, Point.sub]
    unfold wrap32; omega
  · intro hs hm
    obtain ⟨⟨_, _⟩, ⟨_, _⟩, ⟨_, _⟩, ⟨_, _⟩, ⟨_, _⟩, ⟨_, _⟩, _⟩ := hs
    obtain ⟨⟨_, _⟩, ⟨_, _⟩⟩ := hm
    simp only [doWork_align, doWork_selection, Point.sub, Rect.mk.injEq]
    unfold wrap32
    refine ⟨⟨?_, ?_, trivial, trivial⟩, ?_, ?_⟩ <;> omega
  · intro a b ha hb
    simp only [doWork_align, doWork_selection, Mat.crop] at ha hb
    split at ha
    · split at hb
      · cases ha; cases hb
        simp [absdiff]
      · cases hb
    · cases ha

/-- C7.  For every state and every `maxLoc`, the corners passed to
`cv::rectangle` for the found reference rectangle are `ref_TopLeft - delta` and
`ref_BotRight - delta` and they are the corners `tl()` and `br()` (top-left,
and top-left plus width and height) of `image_crop_rect`; the corners of the
found template rectangle are `maxLoc` and `maxLoc + (templ_width, templ_height)`;
the image shown in the second window is `image_second` with these two
rectangles drawn.  For a slider setting and a pixel position `maxLoc` the sums
are exact integers. -/
theorem found_rectangles_match_crop (lib : Library) (s : State) (maxLoc : Point) :
    (doWork_align lib (doWork_selection lib s).1 maxLoc).2.found_ref_pt1
        = Point.sub (doWork_align lib (doWork_selection lib s).1 maxLoc).1.ref_TopLeft
            (doWork_align lib (doWork_selection lib s).1 maxLoc).2.template_delta_point ∧
    (doWork_align lib (doWork_selection lib s).1 maxLoc).2.found_ref_pt2
        = Point.sub (doWork_align lib (doWork_selection lib s).1 maxLoc).1.ref_BotRight
            (doWork_align lib (doWork_selection lib s).1 maxLoc).2.template_delta_point ∧
    (doWork_align lib (doWork_selection lib s).1 maxLoc).2.found_ref_pt1
        = (doWork_align lib (doWork_selection lib s).1 maxLoc).2.image_crop_rect.tl ∧
    (doWork_align lib (doWork_selection lib s).1 maxLoc).2.found_ref_pt2
        = (doWork_align lib (doWork_selection lib s).1 maxLoc).2.image_crop_rect.br ∧
    (doWork_align lib (doWork_selection lib s).1 maxLoc).2.found_templ_pt1 = maxLoc ∧
    (doWork_align lib (doWork_selection lib s).1 maxLoc).2.found_templ_pt2
        = ⟨wrap32 (maxLoc.x + s.templ_width), wrap32 (maxLoc.y + s.templ_height)⟩ ∧
    (doWork_align lib (doWork_selection lib s).1 maxLoc).2.shown_second
        = lib.rectangle
            (lib.rectangle s.image_second
              (doWork_align lib (doWork_selection lib s).1 maxLoc).2.image_crop_rect.tl
              (doWork_align lib (doWork_selection lib s).1 maxLoc).2.image_crop_rect.br 2)
            maxLoc ⟨wrap32 (maxLoc.x + s.templ_width), wrap32 (maxLoc.y + s.templ_height)⟩ 8 ∧
    (SliderRange s → PixelPosition maxLoc →
      (doWork_align lib (doWork_selection lib s).1 maxLoc).2.found_ref_pt2
          = ⟨(doWork_align lib (doWork_selection lib s).1 maxLoc).2.image_crop_rect.x + s.ref_width,
             (doWork_align lib (doWork_selection lib s).1 maxLoc).2.image_crop_rect.y + s.ref_height⟩ ∧
      (doWork_align lib (doWork_selection lib s).1 maxLoc).2.found_templ_pt2
          = ⟨maxLoc.x + s.templ_width, maxLoc.y + s.templ_height⟩) := by
  have htl : (doWork_align lib (doWork_selection lib s).1 maxLoc).2.found_ref_pt1
      = (doWork_align lib (doWork_selection lib s).1 maxLoc).2.image_crop_rect.tl := rfl
  have hbr : (doWork_align lib (doWork_selection lib s).1 maxLoc).2.found_ref_pt2
      = (doWork_align lib (doWork_selection lib s).1 maxLoc).2.image_crop_rect.br := by
    simp only [doWork_align, doWork_selection, Point.sub, Rect.br, Point.mk.injEq]
    unfold wrap32
    constructor <;> omega
  refine ⟨rfl, rfl, htl, hbr, rfl, rfl, ?_, ?_⟩
  · rw [← htl, ← hbr]
    rfl
  · intro hs hm
    obtain ⟨⟨_, _⟩, ⟨_, _⟩, ⟨_, _⟩, ⟨_, _⟩, ⟨_, _⟩, ⟨_, _⟩, ⟨_, _⟩, ⟨_, _⟩, _⟩ := hs
    obtain ⟨⟨_, _⟩, ⟨_, _⟩⟩ := hm
    simp only [doWork_align, doWork_selection, Point.sub, Point.mk.injEq]
    unfold wrap32
    refine ⟨⟨?_, ?_⟩, ?_, ?_⟩ <;> omega

/-- The geometric part of C6: under the margin conditions the shift is exact,
`image_crop_rect` lies inside the second image and the crop succeeds. -/
theorem image_crop_rect_inside (lib : Library) (s : State) (maxLoc : Point)
    (hs : SliderRange s)
    (hx : |s.templ_corner_x - maxLoc.x| ≤ s.ref_corner_x)
    (hy : |s.templ_corner_y - maxLoc.y| ≤ s.ref_corner_y)
    (hW : s.ref_corner_x + s.ref_width + |s.templ_corner_x - maxLoc.x|
        ≤ ((doWork_align lib (doWork_selection lib s).1 maxLoc).1.image_second.cols : Int))
    (hH : s.ref_corner_y + s.ref_height + |s.templ_corner_y - maxLoc.y|
        ≤ ((doWork_align lib (doWork_selection lib s).1 maxLoc).1.image_second.rows : Int)) :
    (doWork_align lib (doWork_selection lib s).1 maxLoc).2.template_delta_point
        = ⟨s.templ_corner_x - maxLoc.x, s.templ_corner_y - maxLoc.y⟩ ∧
    0 ≤ (doWork_align lib (doWork_selection lib s).1 maxLoc).2.image_crop_rect.x ∧
    0 ≤ (doWork_align lib (doWork_selection lib s).1 maxLoc).2.image_crop_rect.y ∧
    (doWork_align lib (doWork_selection lib s).1 maxLoc).2.image_crop_rect.x
        + (doWork_align lib (doWork_selection lib s).1 maxLoc).2.image_crop_rect.width
      ≤ ((doWork_align lib (doWork_selection lib s).1 maxLoc).1.image_second.cols : Int) ∧
    (doWork_align lib (doWork_selection lib s).1 maxLoc).2.image_crop_rect.y
        + (doWork_align lib (doWork_selection lib s).1 maxLoc).2.image_crop_rect.height
      ≤ ((doWork_align lib (doWork_selection lib s).1 maxLoc).1.image_second.rows : Int) ∧
    (doWork_align lib (doWork_selection lib s).1 maxLoc).1.image_second.roiInside
        (doWork_align lib (doWork_selection lib s).1 maxLoc).2.image_crop_rect = true ∧
    (∃ img2_croped : Mat,
      (doWork_align lib (doWork_selection lib s).1 maxLoc).1.image_second.crop
        (doWork_align lib (doWork_selection lib s).1 maxLoc).2.image_crop_rect = some img2_croped ∧
      (img2_croped.rows : Int) = s.ref_height ∧ (img2_croped.cols : Int) = s.ref_width) := by
  obtain ⟨⟨_, _⟩, ⟨_, _⟩, ⟨_, _⟩, ⟨_, _⟩, _⟩ := hs
  rw [abs_le] at hx hy
  have hax := abs_nonneg (s.templ_corner_x - maxLoc.x)
  have hay := abs_nonneg (s.templ_corner_y - maxLoc.y)
  have hax2 := le_abs_self (s.templ_corner_x - maxLoc.x)
  have hay2 := le_abs_self (s.templ_corner_y - maxLoc.y)
  have hax3 := neg_abs_le (s.templ_corner_x - maxLoc.x)
  have hay3 := neg_abs_le (s.templ_corner_y - maxLoc.y)
  have hdx : wrap32 (s.templ_corner_x - maxLoc.x) = s.templ_corner_x - maxLoc.x :=
    wrap32_eq_self (by omega) (by omega)
  have hdy : wrap32 (s.templ_corner_y - maxLoc.y) = s.templ_corner_y - maxLoc.y :=
    wrap32_eq_self (by omega) (by omega)
  have hcx : wrap32 (s.ref_corner_x - (s.templ_corner_x - maxLoc.x))
      = s.ref_corner_x - (s.templ_corner_x - maxLoc.x) := wrap32_eq_self (by omega) (by omega)
  have hcy : wrap32 (s.ref_corner_y - (s.templ_corner_y - maxLoc.y))
      = s.ref_corner_y - (s.templ_corner_y - maxLoc.y) := wrap32_eq_self (by omega) (by omega)
  have hbx : wrap32 (s.ref_corner_x - (s.templ_corner_x - maxLoc.x) + s.ref_width)
      = s.ref_corner_x - (s.templ_corner_x - maxLoc.x) + s.ref_width :=
    wrap32_eq_self (by omega) (by omega)
  have hby : wrap32 (s.ref_corner_y - (s.templ_corner_y - maxLoc.y) + s.ref_height)
      = s.ref_corner_y - (s.templ_corner_y - maxLoc.y) + s.ref_height :=
    wrap32_eq_self (by omega) (by omega)
  simp only [doWork_align, doWork_selection, Point.sub, Mat.crop, Mat.roiInside, hdx, hdy, hcx,
    hcy, hbx, hby] at hW hH ⊢
  have hroi : (decide (0 ≤ s.ref_corner_x - (s.templ_corner_x - maxLoc.x)) && decide (0 ≤ s.ref_width) &&
      decide (s.ref_corner_x - (s.templ_corner_x - maxLoc.x) + s.ref_width ≤ (s.copy2.cols : Int)) &&
      decide (0 ≤ s.ref_corner_y - (s.templ_corner_y - maxLoc.y)) && decide (0 ≤ s.ref_height) &&
      decide (s.ref_corner_y - (s.templ_corner_y - maxLoc.y) + s.ref_height ≤ (s.copy2.rows : Int)))
      = true := by
    simp only [Bool.and_eq_true, decide_eq_true_eq]
    refine ⟨⟨⟨⟨⟨?_, ?_⟩, ?_⟩, ?_⟩, ?_⟩, ?_⟩ <;> omega
  refine ⟨trivial, by omega, by omega, by omega, by omega, hroi, ?_⟩
  rw [if_pos hroi]
  refine ⟨_, rfl, ?_, ?_⟩
  · exact Int.toNat_of_nonneg (by assumption)
  · exact Int.toNat_of_nonneg (by assumption)

/-! ### The structure of a run of `doWork` -/

/-- The comparison block only changes the state of the random generator. -/
theorem doWork_compare_state (lib : Library) (s : State) (a b : Mat) (cmp : State × Comparison)
    (h : doWork_compare lib s a b = some cmp) :
    cmp.1 = { s with rng := cmp.1.rng } := by
  unfold doWork_compare at h
  split at h
  · cases h
  · cases h
    rfl

/-- A completed run went through every block: the template was cut, the match
returned `maxLoc`, both crops succeeded and the comparison block produced the
final state and the comparison of the report. -/
theorem doWork_completed (lib : Library) (s : State) (rep : Report)
    (h : (doWork lib s).2 = .ok rep) :
    (doWork_selection lib s).1.image_first.crop (doWork_selection lib s).1.templ_crop_rect
      = some rep.image_template ∧
    lib.matchTemplate_maxLoc (doWork_selection lib s).1.image_second rep.image_template
      = some rep.maxLoc ∧
    rep.shown_first = (doWork_selection lib s).2 ∧
    rep.alignment = (doWork_align lib (doWork_selection lib s).1 rep.maxLoc).2 ∧
    (doWork_align lib (doWork_selection lib s).1 rep.maxLoc).1.image_first.crop
        (doWork_align lib (doWork_selection lib s).1 rep.maxLoc).1.ref_crop_rect
      = some rep.img1_croped ∧
    (doWork_align lib (doWork_selection lib s).1 rep.maxLoc).1.image_second.crop
        (doWork_align lib (doWork_selection lib s).1 rep.maxLoc).2.image_crop_rect
      = some rep.img2_croped ∧
    doWork_compare lib (doWork_align lib (doWork_selection lib s).1 rep.maxLoc).1
        rep.img1_croped rep.img2_croped
      = some ((doWork lib s).1, rep.comparison) := by
  cases h1 : (doWork_selection lib s).1.image_first.crop (doWork_selection lib s).1.templ_crop_rect with
  | none => simp [doWork, h1] at h
  | some image_template =>
    cases h2 : lib.matchTemplate_maxLoc (doWork_selection lib s).1.image_second image_template with
    | none => simp [doWork, h1, h2] at h
    | some maxLoc =>
      cases h3 : (doWork_align lib (doWork_selection lib s).1 maxLoc).1.image_first.crop
          (doWork_align lib (doWork_selection lib s).1 maxLoc).1.ref_crop_rect with
      | none => simp [doWork, h1, h2, h3] at h
      | some img1 =>
        cases h4 : (doWork_align lib (doWork_selection lib s).1 maxLoc).1.image_second.crop
            (doWork_align lib (doWork_selection lib s).1 maxLoc).2.image_crop_rect with
        | none => simp [doWork, h1, h2, h3, h4] at h
        | some img2 =>
          cases h5 : doWork_compare lib (doWork_align lib (doWork_selection lib s).1 maxLoc).1 img1 img2 with
          | none => simp [doWork, h1, h2, h3, h4, h5] at h
          | some cmp =>
            simp only [doWork, h1, h2, h3, h4, h5, Except.ok.injEq] at h ⊢
            subst h
            simp only [h2, h3, h4, h5]
            exact ⟨trivial, trivial, trivial, trivial, trivial, trivial, trivial⟩

/-- The state a run leaves is the state after the selection block (the run threw
before the match was found), or the state after the alignment block for some
`maxLoc` (it threw at a crop or in `absdiff`), or that state with a new state of
the random generator (it completed). -/
theorem doWork_state_cases (lib : Library) (s : State) :
    (doWork lib s).1 = (doWork_selection lib s).1 ∨
    ∃ maxLoc : Point,
      (doWork lib s).1 = (doWork_align lib (doWork_selection lib s).1 maxLoc).1 ∨
      ∃ r : Nat,
        (doWork lib s).1 = { (doWork_align lib (doWork_selection lib s).1 maxLoc).1 with rng := r } := by
  cases h1 : (doWork_selection lib s).1.image_first.crop (doWork_selection lib s).1.templ_crop_rect with
  | none =>
    simp only [doWork, h1]
    exact Or.inl trivial
  | some image_template =>
    cases h2 : lib.matchTemplate_maxLoc (doWork_selection lib s).1.image_second image_template with
    | none =>
      simp only [doWork, h1, h2]
      exact Or.inl trivial
    | some maxLoc =>
      refine Or.inr ⟨maxLoc, ?_⟩
      cases h3 : (doWork_align lib (doWork_selection lib s).1 maxLoc).1.image_first.crop
          (doWork_align lib (doWork_selection lib s).1 maxLoc).1.ref_crop_rect with
      | none =>
        simp only [doWork, h1, h2, h3]
        exact Or.inl trivial
      | some img1 =>
        cases h4 : (doWork_align lib (doWork_selection lib s).1 maxLoc).1.image_second.crop
            (doWork_align lib (doWork_selection lib s).1 maxLoc).2.image_crop_rect with
        | none =>
          simp only [doWork, h1, h2, h3, h4]
          exact Or.inl trivial
        | some img2 =>
          cases h5 : doWork_compare lib (doWork_align lib (doWork_selection lib s).1 maxLoc).1 img1 img2 with
          | none =>
            simp only [doWork, h1, h2, h3, h4, h5]
            exact Or.inl trivial
          | some cmp =>
            simp only [doWork, h1, h2, h3, h4, h5]
            exact Or.inr ⟨cmp.1.rng, doWork_compare_state lib _ _ _ cmp h5⟩

/-- Whatever the outcome of a run, `copy1` and `copy2` are untouched and
`image_first` has been restored from `copy1`. -/
theorem doWork_state (lib : Library) (s : State) :
    (doWork lib s).1.copy1 = s.copy1 ∧ (doWork lib s).1.copy2 = s.copy2 ∧
    (doWork lib s).1.image_first = s.copy1 := by
  rcases doWork_state_cases lib s with h | ⟨maxLoc, h | ⟨r, h⟩⟩ <;>
    · rw [h]
      exact ⟨rfl, rfl, rfl⟩

/-- No run of `doWork` changes a variable bound to a trackbar. -/
theorem doWork_sliders (lib : Library) (s : State) (t : Trackbar) :
    t.value (doWork lib s).1 = t.value s := by
  rcases doWork_state_cases lib s with h | ⟨maxLoc, h | ⟨r, h⟩⟩ <;>
    · rw [h]
      cases t <;> rfl

/-- After a completed run both working images equal their copies. -/
theorem doWork_restored (lib : Library) (s : State) (rep : Report)
    (h : (doWork lib s).2 = .ok rep) : Restored (doWork lib s).1 := by
  obtain ⟨hc1, hc2, hi1⟩ := doWork_state lib s
  have h5 := (doWork_completed lib s rep h).2.2.2.2.2.2
  have hst := doWork_compare_state lib _ _ _ _ h5
  refine ⟨by rw [hi1, hc1], ?_⟩
  rw [hc2]
  simp only at hst
  rw [hst]
  rfl

/-- Moving a trackbar touches neither the images nor their copies. -/
theorem store_images (t : Trackbar) (pos : Int) (s : State) :
    (t.store pos s).image_first = s.image_first ∧ (t.store pos s).image_second = s.image_second ∧
    (t.store pos s).copy1 = s.copy1 ∧ (t.store pos s).copy2 = s.copy2 := by
  cases t <;> exact ⟨rfl, rfl, rfl, rfl⟩

/-- A trackbar position inside the range of its trackbar keeps the state a slider setting. -/
theorem store_sliderRange (t : Trackbar) (pos : Int) (s : State) (hs : SliderRange s)
    (h0 : 0 ≤ pos) (h1 : pos ≤ t.count) : SliderRange (t.store pos s) := by
  obtain ⟨a1, a2, a3, a4, a5, a6, a7, a8, a9, a10, a11⟩ := hs
  cases t <;> simp only [Trackbar.count] at h1 <;>
    exact ⟨by first | exact a1 | exact ⟨h0, h1⟩, by first | exact a2 | exact ⟨h0, h1⟩,
      by first | exact a3 | exact ⟨h0, h1⟩, by first | exact a4 | exact ⟨h0, h1⟩,
      by first | exact a5 | exact ⟨h0, h1⟩, by first | exact a6 | exact ⟨h0, h1⟩,
      by first | exact a7 | exact ⟨h0, h1⟩, by first | exact a8 | exact ⟨h0, h1⟩,
      by first | exact a9 | exact ⟨h0, h1⟩, by first | exact a10 | exact ⟨h0, h1⟩,
      by first | exact a11 | exact ⟨h0, h1⟩⟩

/-- A slider setting, read trackbar by trackbar. -/
theorem sliderRange_iff (s : State) :
    SliderRange s ↔ ∀ t : Trackbar, 0 ≤ t.value s ∧ t.value s ≤ t.count := by
  constructor
  · rintro ⟨a1, a2, a3, a4, a5, a6, a7, a8, a9, a10, a11⟩ t
    cases t <;> assumption
  · intro h
    exact ⟨h .r_x_TL, h .r_y_TL, h .r_x_BR, h .r_y_BR, h .t_x_TL, h .t_y_TL, h .t_x_BR,
      h .t_y_BR, h .thrshld, h .err_dil, h .min_area⟩

/-- A run of `doWork` from a slider setting ends in a slider setting. -/
theorem doWork_sliderRange (lib : Library) (s : State) (hs : SliderRange s) :
    SliderRange (doWork lib s).1 := by
  rw [sliderRange_iff] at hs ⊢
  intro t
  rw [doWork_sliders]
  exact hs t

/-- The initial values of the trackbar variables are a slider setting, and so is
every state `main` reaches when each trackbar move stays in the range of its trackbar. -/
theorem main_sliderRange (lib : Library) (a b : Mat) :
    SliderRange (main_setup a b) ∧
    ∀ (moves : List (Trackbar × Int)) (s : State),
      (∀ m ∈ moves, 0 ≤ m.2 ∧ m.2 ≤ m.1.count) →
      main lib a b moves = some s → SliderRange s := by
  have hrun : ∀ (moves : List (Trackbar × Int)) (s0 s : State), SliderRange s0 →
      (∀ m ∈ moves, 0 ≤ m.2 ∧ m.2 ≤ m.1.count) →
      trackbarRuns lib s0 moves = some s → SliderRange s := by
    intro moves
    induction moves with
    | nil =>
      intro s0 s h0 _ h
      simp only [trackbarRuns, Option.some.injEq] at h
      exact h ▸ h0
    | cons m rest ih =>
      intro s0 s h0 hm h
      obtain ⟨t, pos⟩ := m
      have hpos := hm (t, pos) (List.mem_cons_self _ _)
      have hnext := doWork_sliderRange lib _ (store_sliderRange t pos s0 h0 hpos.1 hpos.2)
      cases hres : (doWork lib (t.store pos s0)).2 with
      | error e =>
        have hpair : doWork lib (t.store pos s0) = ((doWork lib (t.store pos s0)).1, .error e) := by
          rw [← hres]
        rw [trackbarRuns, hpair] at h
        cases h
      | ok rep =>
        have hpair : doWork lib (t.store pos s0) = ((doWork lib (t.store pos s0)).1, .ok rep) := by
          rw [← hres]
        rw [trackbarRuns, hpair] at h
        exact ih _ s hnext (fun m hmem => hm m (List.mem_cons_of_mem _ hmem)) h
  have hinit0 : SliderRange State.initial := by decide
  have hinit : SliderRange (main_setup a b) := hinit0
  refine ⟨hinit, ?_⟩
  intro moves s hm h
  unfold main at h
  have hfirst := doWork_sliderRange lib _ hinit
  cases hres : (doWork lib (main_setup a b)).2 with
  | error e =>
    have hpair : doWork lib (main_setup a b) = ((doWork lib (main_setup a b)).1, .error e) := by
      rw [← hres]
    rw [hpair] at h
    cases h
  | ok rep =>
    have hpair : doWork lib (main_setup a b) = ((doWork lib (main_setup a b)).1, .ok rep) := by
      rw [← hres]
    rw [hpair] at h
    exact hrun moves _ s hfirst hm h

/-- The runs triggered by trackbar moves keep the copies, and when all of them
complete the state predicate holds at the end. -/
theorem trackbarRuns_restored (lib : Library) :
    ∀ (moves : List (Trackbar × Int)) (s s1 : State), Restored s →
      trackbarRuns lib s moves = some s1 →
      Restored s1 ∧ s1.copy1 = s.copy1 ∧ s1.copy2 = s.copy2 := by
  intro moves
  induction moves with
  | nil =>
    intro s s1 hs h
    simp only [trackbarRuns, Option.some.injEq] at h
    subst h
    exact ⟨hs, rfl, rfl⟩
  | cons m rest ih =>
    intro s s1 _ h
    obtain ⟨t, pos⟩ := m
    obtain ⟨hc1, hc2, _⟩ := doWork_state lib (t.store pos s)
    obtain ⟨_, _, hs1, hs2⟩ := store_images t pos s
    cases hres : (doWork lib (t.store pos s)).2 with
    | error e =>
      have hpair : doWork lib (t.store pos s) = ((doWork lib (t.store pos s)).1, .error e) := by
        rw [← hres]
      rw [trackbarRuns, hpair] at h
      cases h
    | ok rep =>
      have hpair : doWork lib (t.store pos s) = ((doWork lib (t.store pos s)).1, .ok rep) := by
        rw [← hres]
      rw [trackbarRuns, hpair] at h
      obtain ⟨h1, h2, h3⟩ := ih _ s1 (doWork_restored lib _ rep hres) h
      exact ⟨h1, by rw [h2, hc1, hs1], by rw [h3, hc2, hs2]⟩

/-! ### Pixels of the difference image -/

/-- On 8-bit pixels `saturate_cast` leaves the absolute difference unchanged. -/
theorem saturate_u8_absdiff {a b : Nat} (ha : a < 256) (hb : b < 256) :
    ((saturate_u8 (|(a : Int) - (b : Int)|) : Nat) : Int) = |(a : Int) - (b : Int)| := by
  have h0 := abs_nonneg ((a : Int) - (b : Int))
  have h1 : |(a : Int) - (b : Int)| ≤ 255 := by
    rw [abs_le]; constructor <;> omega
  unfold saturate_u8
  rw [if_neg (by omega), if_neg (by omega)]
  exact Int.toNat_of_nonneg h0

/-- Every value under the structuring element is a pixel inside the image. -/
theorem mem_windowVals {src : Mat} {ksize r c v : Nat} (h : v ∈ windowVals src ksize r c) :
    ∃ r1 c1, r1 < src.rows ∧ c1 < src.cols ∧ v = src.px r1 c1 := by
  simp only [windowVals, List.mem_filterMap] at h
  obtain ⟨ij, _, hij⟩ := h
  split at hij
  · rename_i hb
    cases hij
    exact ⟨_, _, by omega, by omega, rfl⟩
  · cases hij

/-- The anchor of a non-empty structuring element placed inside the image is
inside the image: the pixel itself is under the element. -/
theorem self_mem_windowVals {src : Mat} {ksize r c : Nat} (hk : 0 < ksize)
    (hr : r < src.rows) (hc : c < src.cols) : src.px r c ∈ windowVals src ksize r c := by
  simp only [windowVals, List.mem_filterMap]
  refine ⟨(ksize / 2, ksize / 2), ?_, ?_⟩
  · rw [List.pair_mem_product]
    simp only [List.mem_range]
    exact ⟨Nat.div_lt_self hk (by decide), Nat.div_lt_self hk (by decide)⟩
  · have e1 : (r : Int) + ((ksize / 2 : Nat) : Int) - ((ksize / 2 : Nat) : Int) = (r : Int) := by omega
    have e2 : (c : Int) + ((ksize / 2 : Nat) : Int) - ((ksize / 2 : Nat) : Int) = (c : Int) := by omega
    simp only [e1, e2, Int.toNat_ofNat]
    rw [if_pos ⟨by omega, by omega, by omega, by omega⟩]

/-- A minimum taken over values one of which is zero is zero. -/
theorem foldl_min_eq_zero (l : List Nat) (init : Nat) (h : 0 ∈ l) : l.foldl min init = 0 := by
  induction l generalizing init with
  | nil => cases h
  | cons a l ih =>
    simp only [List.foldl_cons]
    rcases List.mem_cons.mp h with h0 | h0
    · subst h0
      have hz : ∀ (l : List Nat), l.foldl min 0 = 0 := by
        intro l
        induction l with
        | nil => rfl
        | cons b l ihl => simpa using ihl
      simpa using hz l
    · exact ih _ h0

/-- A maximum taken over zeros is zero. -/
theorem foldl_max_eq_zero (l : List Nat) (h : ∀ v ∈ l, v = 0) : l.foldl max 0 = 0 := by
  induction l with
  | nil => rfl
  | cons a l ih =>
    have ha : a = 0 := h a (List.mem_cons_self _ _)
    subst ha
    simpa using ih (fun v hv => h v (List.mem_cons_of_mem _ hv))

/-- An image whose pixels are all zero has no non-zero pixel. -/
theorem nonZeroPixels_eq_zero (m : Mat) (h : ∀ r c, r < m.rows → c < m.cols → m.px r c = 0) :
    nonZeroPixels m = 0 := by
  unfold nonZeroPixels
  apply List.sum_eq_zero
  intro n hn
  simp only [List.mem_map, List.mem_range] at hn
  obtain ⟨r, hr, rfl⟩ := hn
  rw [List.length_eq_zero, List.filter_eq_nil_iff]
  intro c hc
  simp only [List.mem_range] at hc
  simp [h r c hr hc]

/-- Binary thresholding with a non-negative threshold keeps a blank image blank. -/
theorem threshold_blank (src : Mat) (thresh maxval : Int) (h0 : 0 ≤ thresh)
    (h : ∀ r c, r < src.rows → c < src.cols → src.px r c = 0) :
    ∀ r c, r < (threshold src thresh maxval 0).rows → c < (threshold src thresh maxval 0).cols →
      (threshold src thresh maxval 0).px r c = 0 := by
  intro r c h1 h2
  simp only [threshold, thresholdPixel, h r c h1 h2]
  rw [if_neg (by simpa using h0)]

/-- Erosion by a non-empty element keeps a blank image blank. -/
theorem erode_blank (src : Mat) (ksize : Nat) (hk : 0 < ksize)
    (h : ∀ r c, r < src.rows → c < src.cols → src.px r c = 0) :
    ∀ r c, r < (erode src ksize).rows → c < (erode src ksize).cols →
      (erode src ksize).px r c = 0 := by
  intro r c h1 h2
  simp only [erode]
  apply foldl_min_eq_zero
  have := @self_mem_windowVals src ksize r c hk h1 h2
  rwa [h r c h1 h2] at this

/-- Dilation keeps a blank image blank. -/
theorem dilate_blank (src : Mat) (ksize : Nat)
    (h : ∀ r c, r < src.rows → c < src.cols → src.px r c = 0) :
    ∀ r c, r < (dilate src ksize).rows → c < (dilate src ksize).cols →
      (dilate src ksize).px r c = 0 := by
  intro r c _ _
  simp only [dilate]
  apply foldl_max_eq_zero
  intro v hv
  obtain ⟨r1, c1, hr1, hc1, rfl⟩ := mem_windowVals hv
  exact h r1 c1 hr1 hc1

/-- The absolute difference of two images with the same pixels is blank. -/
theorem absdiff_samePixels (a b : Mat) (h : a.SamePixels b) :
    ∃ d : Mat, absdiff a b = some d ∧ ∀ r c, r < d.rows → c < d.cols → d.px r c = 0 := by
  obtain ⟨hr, hc, hpx⟩ := h
  refine ⟨_, if_pos ⟨hr, hc⟩, ?_⟩
  intro r c h1 h2
  simp only [hpx r c h1 h2, sub_self, abs_zero]
  rfl

/-- The comparison block on two crops with the same pixels: it completes and
reports no discrepancy pixel and no contour. -/
theorem doWork_compare_samePixels (lib : Library) (hlib : lib.BlankHasNoContour) (s : State)
    (hs : SliderRange s) (img1_croped img2_croped : Mat)
    (heq : img1_croped.SamePixels img2_croped) :
    ∃ cmp : State × Comparison,
      doWork_compare lib s img1_croped img2_croped = some cmp ∧
      cmp.2.nonZeroCount = 0 ∧ cmp.2.contours_cnt = 0 ∧ cmp.2.contours = [] ∧ cmp.2.drawn = [] := by
  obtain ⟨d, hd, hblank⟩ := absdiff_samePixels _ _ heq
  obtain ⟨_, _, _, _, _, _, _, _, ⟨ht0, _⟩, ⟨hseed0, hseed1⟩, _⟩ := hs
  have hw : wrap32 (wrap32 (2 * s.errode_dilate_seed) + 1) = 2 * s.errode_dilate_seed + 1 := by
    unfold wrap32; omega
  have hk : 0 < (wrap32 (wrap32 (2 * s.errode_dilate_seed) + 1)).toNat := by
    rw [hw]; omega
  have hnz := nonZeroPixels_eq_zero _
    (dilate_blank _ (wrap32 (wrap32 (2 * s.errode_dilate_seed) + 1)).toNat
      (erode_blank _ _ hk (threshold_blank d s.threshold_value max_threshold_value ht0 hblank)))
  have hcont := hlib _ hnz
  simp only [doWork_compare, hd]
  refine ⟨_, rfl, ?_⟩
  simp only [countNonZero, hnz, hcont, doWork_contours]
  exact ⟨rfl, trivial, trivial, trivial⟩

/-! ### The loop over the contours -/

/-- C2.  For every pair of equally sized 8-bit crops and every threshold value
(in particular every value from 0 to 255), the comparison block of `doWork`
completes, the thresholded difference image has the size of the crops, and each
of its pixels is 255 when the absolute difference of the two crop pixels is
strictly greater than `threshold_value`, and 0 otherwise. -/
theorem thresholded_difference_is_binary (lib : Library) (s : State)
    (img1_croped img2_croped : Mat)
    (h1 : img1_croped.Is8U) (h2 : img2_croped.Is8U)
    (hsize : img1_croped.rows = img2_croped.rows ∧ img1_croped.cols = img2_croped.cols) :
    ∃ cmp : State × Comparison,
      doWork_compare lib s img1_croped img2_croped = some cmp ∧
      cmp.2.image_thresholded.rows = img1_croped.rows ∧
      cmp.2.image_thresholded.cols = img1_croped.cols ∧
      ∀ r c, r < img1_croped.rows → c < img1_croped.cols →
        cmp.2.image_thresholded.px r c
          = if s.threshold_value < |(img1_croped.px r c : Int) - (img2_croped.px r c : Int)|
            then 255 else 0 := by
  simp only [doWork_compare, absdiff, if_pos hsize]
  refine ⟨_, rfl, rfl, rfl, ?_⟩
  intro r c hr hc
  have ha := h1 r c hr hc
  have hb := h2 r c (hsize.1 ▸ hr) (hsize.2 ▸ hc)
  simp only [threshold, thresholdPixel, saturate_u8_absdiff ha hb, max_threshold_value]
  rfl

/-- In a completed run the reported count and the draw calls are those of the
loop run on the contours that `findContours` returned for the difference image. -/
theorem doWork_compare_contours (lib : Library) (s : State) (a b : Mat)
    (cmp : State × Comparison) (h : doWork_compare lib s a b = some cmp) :
    cmp.2.contours = lib.findContours cmp.2.image_diff ∧
    cmp.2.contours_cnt
      = (doWork_contours lib s.threshold_defect_area cmp.2.contours 0 ⟨s.rng, 0, []⟩).contours_cnt ∧
    cmp.2.drawn
      = (doWork_contours lib s.threshold_defect_area cmp.2.contours 0 ⟨s.rng, 0, []⟩).drawn ∧
    cmp.2.nonZeroCount = countNonZero cmp.2.image_diff := by
  unfold doWork_compare at h
  split at h
  · cases h
  · cases h
    exact ⟨rfl, rfl, rfl, rfl⟩

/-- C5.  Let `findContours` return no contour for an image without non-zero
pixel, and take any slider setting (so `threshold_value` is in 0..255,
`errode_dilate_seed` in 0..50 and `threshold_defect_area` in 0..2000).
Whenever the two crops have the same size and the same pixels, the comparison
completes and reports a Discrepancy Pixels Count of 0 and a count of regions
above the area threshold of 0; so does every completed run of `doWork` whose
two crops have the same pixels; and a completed run on two equal images whose
match is found at the template's own position has two such crops. -/
theorem equal_crops_report_zero (lib : Library) (hlib : lib.BlankHasNoContour) (s : State)
    (hs : SliderRange s) :
    (∀ img1_croped img2_croped : Mat, img1_croped.SamePixels img2_croped →
      ∃ cmp : State × Comparison,
        doWork_compare lib s img1_croped img2_croped = some cmp ∧
        cmp.2.nonZeroCount = 0 ∧ cmp.2.contours_cnt = 0) ∧
    (∀ rep : Report, (doWork lib s).2 = .ok rep →
      rep.img1_croped.SamePixels rep.img2_croped →
      rep.comparison.nonZeroCount = 0 ∧ rep.comparison.contours_cnt = 0) ∧
    (∀ rep : Report, (doWork lib s).2 = .ok rep → s.copy1 = s.copy2 →
      rep.maxLoc = ⟨s.templ_corner_x, s.templ_corner_y⟩ →
      rep.img1_croped.SamePixels rep.img2_croped) := by
  refine ⟨?_, ?_, ?_⟩
  · intro a b hab
    obtain ⟨cmp, h, h1, h2, _⟩ := doWork_compare_samePixels lib hlib s hs a b hab
    exact ⟨cmp, h, h1, h2⟩
  · intro rep hrep hsame
    have h5 := (doWork_completed lib s rep hrep).2.2.2.2.2.2
    obtain ⟨cmp, h, h1, h2, _⟩ := doWork_compare_samePixels lib hlib
      (doWork_align lib (doWork_selection lib s).1 rep.maxLoc).1 hs _ _ hsame
    rw [h5] at h
    cases h
    exact ⟨h1, h2⟩
  · intro rep hrep hcopy hloc
    obtain ⟨_, _, _, _, h3, h4, _⟩ := doWork_completed lib s rep hrep
    obtain ⟨⟨_, _⟩, ⟨_, _⟩, ⟨_, _⟩, ⟨_, _⟩, _⟩ := hs
    have ex : wrap32 (s.ref_corner_x - wrap32 (s.templ_corner_x - s.templ_corner_x))
        = s.ref_corner_x := by
      unfold wrap32; omega
    have ey : wrap32 (s.ref_corner_y - wrap32 (s.templ_corner_y - s.templ_corner_y))
        = s.ref_corner_y := by
      unfold wrap32; omega
    simp only [doWork_align, doWork_selection, Point.sub, hloc, ex, ey] at h3 h4
    rw [hcopy, h4] at h3
    have h12 : rep.img2_croped = rep.img1_croped := Option.some.inj h3
    rw [h12]
    exact ⟨rfl, rfl, fun _ _ _ _ => rfl⟩

/-! ### The claims on the state -/

/-- C4.  The predicate "`image_first` equals `copy1` and `image_second` equals
`copy2`" holds after the set-up of `main`, after every completed run of
`doWork` from any state, and at the end of every sequence of completed runs of
`main`, where the copies are still the two loaded images; no run of `doWork`,
completed or not, changes `copy1` or `copy2`; and in a completed run the
template and the reference crop are cut from the pixels of `copy1` and the
second crop from the pixels of `copy2`, the image with the rectangles drawn
being only the one shown. -/
theorem images_restored_after_every_run (lib : Library) :
    (∀ a b : Mat,
      Restored (main_setup a b) ∧ (main_setup a b).copy1 = a ∧ (main_setup a b).copy2 = b) ∧
    (∀ s : State, (doWork lib s).1.copy1 = s.copy1 ∧ (doWork lib s).1.copy2 = s.copy2) ∧
    (∀ (s : State) (rep : Report), (doWork lib s).2 = .ok rep → Restored (doWork lib s).1) ∧
    (∀ (a b : Mat) (moves : List (Trackbar × Int)) (s : State),
      main lib a b moves = some s → Restored s ∧ s.copy1 = a ∧ s.copy2 = b) ∧
    (∀ (s : State) (rep : Report), (doWork lib s).2 = .ok rep →
      rep.shown_first
        = lib.rectangle
            (lib.rectangle s.image_first ⟨s.ref_corner_x, s.ref_corner_y⟩
              ⟨wrap32 (s.ref_corner_x + s.ref_width), wrap32 (s.ref_corner_y + s.ref_height)⟩ 2)
            ⟨s.templ_corner_x, s.templ_corner_y⟩
            ⟨wrap32 (s.templ_corner_x + s.templ_width),
             wrap32 (s.templ_corner_y + s.templ_height)⟩ 8 ∧
      s.copy1.crop ⟨s.templ_corner_x, s.templ_corner_y, s.templ_width, s.templ_height⟩
        = some rep.image_template ∧
      s.copy1.crop ⟨s.ref_corner_x, s.ref_corner_y, s.ref_width, s.ref_height⟩
        = some rep.img1_croped ∧
      s.copy2.crop rep.alignment.image_crop_rect = some rep.img2_croped) := by
  refine ⟨fun a b => ⟨⟨rfl, rfl⟩, rfl, rfl⟩, fun s => ?_, doWork_restored lib, ?_, ?_⟩
  · exact ⟨(doWork_state lib s).1, (doWork_state lib s).2.1⟩
  · intro a b moves s h
    unfold main at h
    obtain ⟨hc1, hc2, _⟩ := doWork_state lib (main_setup a b)
    cases hres : (doWork lib (main_setup a b)).2 with
    | error e =>
      have hpair : doWork lib (main_setup a b) = ((doWork lib (main_setup a b)).1, .error e) := by
        rw [← hres]
      rw [hpair] at h
      cases h
    | ok rep =>
      have hpair : doWork lib (main_setup a b) = ((doWork lib (main_setup a b)).1, .ok rep) := by
        rw [← hres]
      rw [hpair] at h
      obtain ⟨h1, h2, h3⟩ :=
        trackbarRuns_restored lib moves _ s (doWork_restored lib _ rep hres) h
      exact ⟨h1, by rw [h2, hc1]; rfl, by rw [h3, hc2]; rfl⟩
  · intro s rep h
    obtain ⟨h1, _, h2, h3, h4, h5, _⟩ := doWork_completed lib s rep h
    rw [h3]
    exact ⟨h2, h1, h4, h5⟩

/-- C6.  For every slider setting and every `maxLoc`, write `dx` and `dy` for
the shift `template top-left - maxLoc`.  If `|dx| <= ref_corner_x`,
`|dy| <= ref_corner_y`, `ref_corner_x + ref_width + |dx| <= W` and
`ref_corner_y + ref_height + |dy| <= H`, where `W x H` is the size of the second
image at the crop, then `template_delta_point` is `(dx, dy)`, `image_crop_rect`
has a non-negative top-left corner and lies inside the second image, the
crop `image_second(image_crop_rect)` returns an image of `ref_height` rows and
`ref_width` columns, and a run of `doWork` in which the match returns this
`maxLoc` does not throw at that crop. -/
theorem image_crop_in_bounds (lib : Library) (s : State) (maxLoc : Point)
    (hs : SliderRange s)
    (hx : |s.templ_corner_x - maxLoc.x| ≤ s.ref_corner_x)
    (hy : |s.templ_corner_y - maxLoc.y| ≤ s.ref_corner_y)
    (hW : s.ref_corner_x + s.ref_width + |s.templ_corner_x - maxLoc.x|
        ≤ ((doWork_align lib (doWork_selection lib s).1 maxLoc).1.image_second.cols : Int))
    (hH : s.ref_corner_y + s.ref_height + |s.templ_corner_y - maxLoc.y|
        ≤ ((doWork_align lib (doWork_selection lib s).1 maxLoc).1.image_second.rows : Int)) :
    (doWork_align lib (doWork_selection lib s).1 maxLoc).2.template_delta_point
        = ⟨s.templ_corner_x - maxLoc.x, s.templ_corner_y - maxLoc.y⟩ ∧
    0 ≤ (doWork_align lib (doWork_selection lib s).1 maxLoc).2.image_crop_rect.x ∧
    0 ≤ (doWork_align lib (doWork_selection lib s).1 maxLoc).2.image_crop_rect.y ∧
    (doWork_align lib (doWork_selection lib s).1 maxLoc).2.image_crop_rect.x
        + (doWork_align lib (doWork_selection lib s).1 maxLoc).2.image_crop_rect.width
      ≤ ((doWork_align lib (doWork_selection lib s).1 maxLoc).1.image_second.cols : Int) ∧
    (doWork_align lib (doWork_selection lib s).1 maxLoc).2.image_crop_rect.y
        + (doWork_align lib (doWork_selection lib s).1 maxLoc).2.image_crop_rect.height
      ≤ ((doWork_align lib (doWork_selection lib s).1 maxLoc).1.image_second.rows : Int) ∧
    (∃ img2_croped : Mat,
      (doWork_align lib (doWork_selection lib s).1 maxLoc).1.image_second.crop
        (doWork_align lib (doWork_selection lib s).1 maxLoc).2.image_crop_rect = some img2_croped ∧
      (img2_croped.rows : Int) = s.ref_height ∧ (img2_croped.cols : Int) = s.ref_width) ∧
    (∀ image_template : Mat,
      (doWork_selection lib s).1.image_first.crop (doWork_selection lib s).1.templ_crop_rect
        = some image_template →
      lib.matchTemplate_maxLoc (doWork_selection lib s).1.image_second image_template
        = some maxLoc →
      (doWork lib s).2 ≠ .error .imageCrop) := by
  obtain ⟨g1, g2, g3, g4, g5, _, g6⟩ := image_crop_rect_inside lib s maxLoc hs hx hy hW hH
  refine ⟨g1, g2, g3, g4, g5, g6, ?_⟩
  intro image_template h1 h2
  obtain ⟨img2, h4, _⟩ := g6
  cases h3 : (doWork_align lib (doWork_selection lib s).1 maxLoc).1.image_first.crop
      (doWork_align lib (doWork_selection lib s).1 maxLoc).1.ref_crop_rect with
  | none => simp [doWork, h1, h2, h3]
  | some img1 =>
    cases h5 : doWork_compare lib (doWork_align lib (doWork_selection lib s).1 maxLoc).1 img1 img2 with
    | none => simp [doWork, h1, h2, h3, h4, h5]
    | some cmp => simp [doWork, h1, h2, h3, h4, h5]

/-! ### The theorems at concrete inputs -/

/-- C1 at the initial slider setting with the match found at `(1080, 95)`:
the reference rectangle `(20, 100, 1200, 900)` is moved by `(-5, -5)`. -/
theorem image_crop_rect_is_translated_reference_witness :
    SliderRange (main_setup sampleFirst sampleSecond) ∧ PixelPosition ⟨1080, 95⟩ ∧
    (doWork_align sampleLibrary
        (doWork_selection sampleLibrary (main_setup sampleFirst sampleSecond)).1
        ⟨1080, 95⟩).2.image_crop_rect = ⟨15, 95, 1200, 900⟩ :=
  ⟨by decide, by decide,
   ((image_crop_rect_is_translated_reference sampleLibrary
      (main_setup sampleFirst sampleSecond) ⟨1080, 95⟩).2.2.2.2.2.2.1
      (by decide) (by decide)).1⟩

/-- C2 on two 2 x 2 crops with the initial threshold 50: the differences 9 and
41 give 0, the differences 51 and 101 give 255. -/
theorem thresholded_difference_is_binary_witness :
    sampleCropA.Is8U ∧ sampleCropB.Is8U ∧
    ∃ cmp : State × Comparison,
      doWork_compare sampleLibrary State.initial sampleCropA sampleCropB = some cmp ∧
      cmp.2.image_thresholded.px 0 0 = 0 ∧ cmp.2.image_thresholded.px 0 1 = 0 ∧
      cmp.2.image_thresholded.px 1 0 = 255 ∧ cmp.2.image_thresholded.px 1 1 = 255 := by
  have hA : sampleCropA.Is8U := by
    intro r c hr hc
    simp only [sampleCropA] at hr hc ⊢
    omega
  have hB : sampleCropB.Is8U := by
    intro r c hr hc
    simp only [sampleCropB] at hr hc ⊢
    omega
  obtain ⟨cmp, hcmp, _, _, hpx⟩ :=
    thresholded_difference_is_binary sampleLibrary State.initial sampleCropA sampleCropB
      hA hB ⟨rfl, rfl⟩
  refine ⟨hA, hB, cmp, hcmp, ?_, ?_, ?_, ?_⟩
  · rw [hpx 0 0 (by decide) (by decide)]; decide
  · rw [hpx 0 1 (by decide) (by decide)]; decide
  · rw [hpx 1 0 (by decide) (by decide)]; decide
  · rw [hpx 1 1 (by decide) (by decide)]; decide

/-- C4 on the sample images: `main` completes its first run and the runs of two
trackbar moves, and ends with both images equal to the loaded ones. -/
theorem images_restored_after_every_run_witness :
    ∃ s : State,
      main sampleLibrary sampleFirst sampleSecond [(.thrshld, 10), (.r_x_TL, 25)] = some s ∧
      Restored s ∧ s.copy1 = sampleFirst ∧ s.copy2 = sampleSecond := by
  have hsome :
      (main sampleLibrary sampleFirst sampleSecond [(.thrshld, 10), (.r_x_TL, 25)]).isSome
        = true := by decide
  obtain ⟨s, hs⟩ := Option.isSome_iff_exists.mp hsome
  exact ⟨s, hs,
    (images_restored_after_every_run sampleLibrary).2.2.2.1 sampleFirst sampleSecond _ s hs⟩

/-- C5 at the initial slider setting on a crop and a copy of it that lives in
a different buffer. -/
theorem equal_crops_report_zero_witness :
    sampleLibrary.BlankHasNoContour ∧ SliderRange State.initial ∧
    sampleCropA.SamePixels sampleCropA2 ∧
    ∃ cmp : State × Comparison,
      doWork_compare sampleLibrary State.initial sampleCropA sampleCropA2 = some cmp ∧
      cmp.2.nonZeroCount = 0 ∧ cmp.2.contours_cnt = 0 := by
  have hlib : sampleLibrary.BlankHasNoContour := by
    intro m hm
    simp only [sampleLibrary, hm, if_true]
  have hsame : sampleCropA.SamePixels sampleCropA2 := by
    refine ⟨rfl, rfl, ?_⟩
    intro r c hr hc
    simp only [sampleCropA] at hr hc
    simp only [sampleCropA, sampleCropA2, if_pos (And.intro hr hc)]
  exact ⟨hlib, by decide, hsame,
    (equal_crops_report_zero sampleLibrary hlib State.initial (by decide)).1 _ _ hsame⟩

/-- C6 at the initial slider setting on the 1400 x 1010 sample image with the
match found at `(1080, 95)`: the shift is `(5, 5)`, the margins 20 and 100
accommodate it, and `doWork` does not throw at the crop of the second image. -/
theorem image_crop_in_bounds_witness :
    (doWork_align sampleLibrary
        (doWork_selection sampleLibrary (main_setup sampleFirst sampleSecond)).1
        ⟨1080, 95⟩).2.template_delta_point = ⟨5, 5⟩ ∧
    (doWork sampleLibrary (main_setup sampleFirst sampleSecond)).2 ≠ .error .imageCrop := by
  have h := image_crop_in_bounds sampleLibrary (main_setup sampleFirst sampleSecond) ⟨1080, 95⟩
    (by decide) (by decide) (by decide) (by decide) (by decide)
  exact ⟨h.1, h.2.2.2.2.2.2 _ rfl rfl⟩

/-- C7 at the initial slider setting with the match found at `(1080, 95)`: the
found reference rectangle runs from `(15, 95)` to `(1215, 995)`, the found
template rectangle from `(1080, 95)` to `(1180, 395)`. -/
theorem found_rectangles_match_crop_witness :
    (doWork_align sampleLibrary
        (doWork_selection sampleLibrary (main_setup sampleFirst sampleSecond)).1
        ⟨1080, 95⟩).2.found_ref_pt1 = ⟨15, 95⟩ ∧
    (doWork_align sampleLibrary
        (doWork_selection sampleLibrary (main_setup sampleFirst sampleSecond)).1
        ⟨1080, 95⟩).2.found_ref_pt2 = ⟨1215, 995⟩ ∧
    (doWork_align sampleLibrary
        (doWork_selection sampleLibrary (main_setup sampleFirst sampleSecond)).1
        ⟨1080, 95⟩).2.found_templ_pt2 = ⟨1180, 395⟩ := by
  have h := found_rectangles_match_crop sampleLibrary (main_setup sampleFirst sampleSecond)
    ⟨1080, 95⟩
  refine ⟨h.2.2.1.trans (by decide), ?_, ?_⟩
  · exact (h.2.2.2.2.2.2.2 (by decide) (by decide)).1.trans (by decide)
  · exact (h.2.2.2.2.2.2.2 (by decide) (by decide)).2

end CompareImages
